import Mathlib

/-!
Shallow embedding of `src/core/lib/transport/transport.cc` (gRPC transport
abstraction layer): stream reference counting and deferred destruction, batch
failure propagation, synthetic-op factories, and polling-entity dispatch.

Pure functions model the C++ code; side effects (scheduling a closure, freeing
an allocation) are reified as event lists in program order.  Collaborators that
live outside the shown source (exec_ctx, closure, call_combiner, polling
entity) are modelled from the specification and marked as such.
-/

/-- An opaque error/status handle (`grpc_error_handle` wraps `absl::Status`);
only its identity matters to this layer, so it is modelled as a number. -/
abbrev grpc_error_handle := Nat

/-- Modelled from the spec: the success status `absl::OkStatus()`, one
distinguished error value. -/
def absl_OkStatus : grpc_error_handle := 0

/-- Modelled from the spec: a closure bundles an invoke function and its
context argument (spec section 3, `Closure`); both are modelled by identity. -/
structure grpc_closure where
  cb : Nat
  cb_arg : Nat
deriving DecidableEq, Repr

/-- Modelled from the spec: `GRPC_CLOSURE_INIT(closure, cb, cb_arg, scheduler)`
(closure.h, outside src/) initialises a closure from a callback and its
argument; the scheduler argument is `grpc_schedule_on_exec_ctx` at every call
site in the source and is not modelled. -/
def GRPC_CLOSURE_INIT (cb : Nat) (cb_arg : Nat) : grpc_closure :=
  { cb := cb, cb_arg := cb_arg }

/-- One observable scheduling/invocation of a closure with an error. -/
structure RunEvent where
  closure : grpc_closure
  error : grpc_error_handle
deriving DecidableEq, Repr

/-- Modelled from the spec: `grpc_core::ExecCtx::Run(location, closure, error)`
(exec_ctx.h/.cc, outside src/) schedules the closure on the current
deferred-execution context with the given error; a null closure is never
scheduled ("Closures absent from the batch (flag not set, or pointer null)
must never fire"). -/
def ExecCtx.Run (c : Option grpc_closure) (e : grpc_error_handle) : List RunEvent :=
  match c with
  | some cl => [{ closure := cl, error := e }]
  | none => []

/-- Modelled from the spec: `grpc_core::Closure::Run(location, closure, error)`
(closure.h, outside src/) runs the closure immediately with the given error; a
null closure never fires. -/
def Closure.Run (c : Option grpc_closure) (e : grpc_error_handle) : List RunEvent :=
  match c with
  | some cl => [{ closure := cl, error := e }]
  | none => []

/-- Modelled from the spec: the execution context's flag word; the only flag
this source reads is the thread-resource-loop flag (exec_ctx.h, outside
src/). -/
structure ExecCtxState where
  flags : Nat
deriving DecidableEq, Repr

/-- Modelled from the spec: the bit indicating "the current thread is inside a
resource loop" (exec_ctx.h, outside src/); its concrete value is irrelevant to
the dispatch, only whether the masked word is nonzero. -/
def GRPC_EXEC_CTX_FLAG_THREAD_RESOURCE_LOOP : Nat := 2

/-- `grpc_stream_refcount` (transport.h): a reference count, the destroy
closure it guards, and the debug-only `object_type` tag. -/
structure grpc_stream_refcount where
  refs : Nat
  destroy : grpc_closure
  object_type : String
deriving DecidableEq, Repr

/-- Where `grpc_stream_destroy` sends the destroy closure: either a task handed
to the default event engine (which, when the engine later runs it on its own
thread, opens fresh `ApplicationCallbackExecCtx`/`ExecCtx` scopes and performs
the recorded runs), or runs scheduled on the current execution context. -/
inductive StreamDestroyDispatch where
  | eventEngineRun (task : List RunEvent)
  | currentExecCtx (scheduled : List RunEvent)
deriving DecidableEq, Repr

/-- `grpc_stream_destroy` (transport.cc lines 41-61): if the execution
context's thread-resource-loop flag is set, hand a task to the default event
engine that runs the destroy closure with `absl::OkStatus()` inside fresh
execution scopes; otherwise run the destroy closure through the current
execution context with `absl::OkStatus()`. -/
def grpc_stream_destroy (ctx : ExecCtxState) (refcount : grpc_stream_refcount) :
    StreamDestroyDispatch :=
  if ctx.flags &&& GRPC_EXEC_CTX_FLAG_THREAD_RESOURCE_LOOP ≠ 0 then
    StreamDestroyDispatch.eventEngineRun (ExecCtx.Run (some refcount.destroy) absl_OkStatus)
  else
    StreamDestroyDispatch.currentExecCtx (ExecCtx.Run (some refcount.destroy) absl_OkStatus)

/-- `grpc_stream_ref_init` (transport.cc lines 67-81, debug variant): stores
`object_type`, initialises the destroy closure from `cb`/`cb_arg`, and
constructs the embedded `RefCount` with count 1 — the `initial_refs` parameter
is unnamed in the source and ignored. -/
def grpc_stream_ref_init (initial_refs : Int) (cb : Nat) (cb_arg : Nat)
    (object_type : String) : grpc_stream_refcount :=
  { refs := (fun (_ : Int) => 1) initial_refs
    destroy := GRPC_CLOSURE_INIT cb cb_arg
    object_type := object_type }

/-- One entry of a `CallCombinerClosureList` (call_combiner.h): the closure
pointer as stored (possibly null), the error, and a diagnostic reason. -/
structure CallCombinerEntry where
  closure : Option grpc_closure
  error : grpc_error_handle
  reason : String
deriving DecidableEq, Repr

/-- `grpc_core::CallCombinerClosureList` (call_combiner.h): an ordered list of
entries accumulated during failure construction. -/
structure CallCombinerClosureList where
  closures : List CallCombinerEntry
deriving DecidableEq, Repr

/-- Modelled from the spec: `CallCombinerClosureList::Add(closure, error,
reason)` appends an entry and runs nothing (call_combiner.h, outside src/). -/
def CallCombinerClosureList.Add (l : CallCombinerClosureList)
    (closure : Option grpc_closure) (error : grpc_error_handle) (reason : String) :
    CallCombinerClosureList :=
  { closures := l.closures ++ [{ closure := closure, error := error, reason := reason }] }

/-- One entry scheduled to run serialized through a call combiner. -/
structure CombinerSched where
  call_combiner : Nat
  closure : Option grpc_closure
  error : grpc_error_handle
  reason : String
deriving DecidableEq, Repr

/-- Modelled from the spec: `CallCombinerClosureList::RunClosures(combiner)`
schedules each entry, in insertion order, to run serialized through the given
call combiner, consuming the list (call_combiner.h, outside src/). -/
def CallCombinerClosureList.RunClosures (l : CallCombinerClosureList)
    (call_combiner : Nat) : List CombinerSched :=
  l.closures.map (fun en =>
    { call_combiner := call_combiner, closure := en.closure
      error := en.error, reason := en.reason })

/-- Payload slot `recv_initial_metadata` of a batch payload; only the ready
closure matters to this source. -/
structure RecvInitialMetadata where
  recv_initial_metadata_ready : Option grpc_closure
deriving DecidableEq, Repr

/-- Payload slot `recv_message` of a batch payload. -/
structure RecvMessage where
  recv_message_ready : Option grpc_closure
deriving DecidableEq, Repr

/-- Payload slot `recv_trailing_metadata` of a batch payload. -/
structure RecvTrailingMetadata where
  recv_trailing_metadata_ready : Option grpc_closure
deriving DecidableEq, Repr

/-- `grpc_transport_stream_op_batch_payload` (transport.h), restricted to the
receive-side ready closures this source touches. -/
structure grpc_transport_stream_op_batch_payload where
  recv_initial_metadata : RecvInitialMetadata
  recv_message : RecvMessage
  recv_trailing_metadata : RecvTrailingMetadata
deriving DecidableEq, Repr

/-- `grpc_transport_stream_op_batch` (transport.h): the batch-completion
closure, the payload, and the operation flags.  The send-side and cancel flags
are carried for fidelity; the functions in this source never read them. -/
structure grpc_transport_stream_op_batch where
  on_complete : Option grpc_closure
  payload : grpc_transport_stream_op_batch_payload
  send_initial_metadata : Bool
  send_trailing_metadata : Bool
  send_message : Bool
  recv_initial_metadata : Bool
  recv_message : Bool
  recv_trailing_metadata : Bool
  cancel_stream : Bool
deriving DecidableEq, Repr

/-- `grpc_transport_stream_op_batch_queue_finish_with_failure` (transport.cc
lines 115-136): for each receive flag that is set, append the corresponding
ready closure pointer with the error to the list; append `on_complete` last
when it is non-null.  Purely builds the list. -/
def grpc_transport_stream_op_batch_queue_finish_with_failure
    (batch : grpc_transport_stream_op_batch) (error : grpc_error_handle)
    (closures : CallCombinerClosureList) : CallCombinerClosureList :=
  let l1 := if batch.recv_initial_metadata then
      closures.Add batch.payload.recv_initial_metadata.recv_initial_metadata_ready error
        ("failing recv_initial_metadata_ready")
    else closures
  let l2 := if batch.recv_message then
      l1.Add batch.payload.recv_message.recv_message_ready error
        ("failing recv_message_ready")
    else l1
  let l3 := if batch.recv_trailing_metadata then
      l2.Add batch.payload.recv_trailing_metadata.recv_trailing_metadata_ready error
        ("failing recv_trailing_metadata_ready")
    else l2
  if batch.on_complete.isSome then
    l3.Add batch.on_complete error ("failing on_complete")
  else l3

/-- `grpc_transport_stream_op_batch_finish_with_failure` (transport.cc lines
105-113): build the closure list on a freshly constructed (empty) list via
`queue_finish_with_failure`, then drain it through the given call combiner. -/
def grpc_transport_stream_op_batch_finish_with_failure
    (batch : grpc_transport_stream_op_batch) (error : grpc_error_handle)
    (call_combiner : Nat) : List CombinerSched :=
  let closures : CallCombinerClosureList := { closures := [] }
  let closures := grpc_transport_stream_op_batch_queue_finish_with_failure batch error closures
  closures.RunClosures call_combiner

/-- `grpc_transport_stream_op_batch_finish_with_failure_from_transport`
(transport.cc lines 138-160): for each receive flag that is set, run the
corresponding ready closure pointer through `ExecCtx::Run` with the error, and
run `on_complete` last when non-null. -/
def grpc_transport_stream_op_batch_finish_with_failure_from_transport
    (batch : grpc_transport_stream_op_batch) (error : grpc_error_handle) :
    List RunEvent :=
  (if batch.recv_initial_metadata then
     ExecCtx.Run batch.payload.recv_initial_metadata.recv_initial_metadata_ready error
   else [])
  ++ (if batch.recv_message then
        ExecCtx.Run batch.payload.recv_message.recv_message_ready error
      else [])
  ++ (if batch.recv_trailing_metadata then
        ExecCtx.Run batch.payload.recv_trailing_metadata.recv_trailing_metadata_ready error
      else [])
  ++ (if batch.on_complete.isSome then ExecCtx.Run batch.on_complete error else [])

/-- Modelled from the spec: the closures that ultimately fire when a queued
entry list is drained through a call combiner — each entry runs serialized in
insertion order; an entry whose stored pointer is null fires nothing
("Closures absent from the batch (flag not set, or pointer null) must never
fire"). -/
def drainEntries : List CallCombinerEntry → List RunEvent
  | [] => []
  | en :: r => ExecCtx.Run en.closure en.error ++ drainEntries r

/-- The closures that ultimately fire from draining a whole list. -/
def drainFires (l : CallCombinerClosureList) : List RunEvent :=
  drainEntries l.closures

/-- One reference-count operation on a stream. -/
inductive RefOp where
  | ref
  | unref
deriving DecidableEq, Repr

/-- Number of `ref` operations in a sequence. -/
def refsCount : List RefOp → Nat
  | [] => 0
  | RefOp.ref :: r => refsCount r + 1
  | RefOp.unref :: r => refsCount r

/-- Number of `unref` operations in a sequence. -/
def unrefsCount : List RefOp → Nat
  | [] => 0
  | RefOp.ref :: r => unrefsCount r
  | RefOp.unref :: r => unrefsCount r + 1

/-- Modelled from the spec: the effect of one `grpc_stream_ref` /
`grpc_stream_unref` on the count (transport.h, outside src/): `ref` atomically
increments, `unref` atomically decrements. -/
def stepCount : Nat → RefOp → Nat
  | n, RefOp.ref => n + 1
  | n, RefOp.unref => n - 1

/-- Modelled from the spec: how many times one operation fires the destroy
protocol — `unref` fires it exactly at the 1 to 0 transition (transport.h,
outside src/: `if (refcount->refs.Unref()) grpc_stream_destroy(refcount)`). -/
def stepFires : Nat → RefOp → Nat
  | _, RefOp.ref => 0
  | n, RefOp.unref => if n = 1 then 1 else 0

/-- Run a sequence of ref/unref operations from a starting count; returns the
final count and the total number of destroy firings. -/
def runRefOps : Nat → List RefOp → Nat × Nat
  | n, [] => (n, 0)
  | n, op :: r =>
    let rest := runRefOps (stepCount n op) r
    (rest.1, stepFires n op + rest.2)

/-- A sequence respects the spec's usage rules from a starting count when the
count is nonzero before every operation (no `ref` after the count has reached
0, never more `unref`s than outstanding references). -/
def validFrom : Nat → List RefOp → Bool
  | _, [] => true
  | n, op :: r => (n != 0) && validFrom (stepCount n op) r

/-- `made_transport_op` (transport.cc lines 162-169): the wrapper allocation
for a synthetic transport op; only the saved inner `on_complete` matters to
the wrapper's behaviour. -/
structure made_transport_op where
  inner_on_complete : Option grpc_closure
deriving DecidableEq, Repr

/-- `made_transport_stream_op` (transport.cc lines 186-191): the wrapper
allocation for a synthetic stream op batch. -/
structure made_transport_stream_op where
  inner_on_complete : Option grpc_closure
deriving DecidableEq, Repr

/-- Observable steps of a synthetic-op wrapper closure: forwarding the
caller-supplied inner `on_complete` with an error, or freeing (`delete`) the
wrapper allocation. -/
inductive MadeOpEvent where
  | forward (c : grpc_closure) (e : grpc_error_handle)
  | free
deriving DecidableEq, Repr

/-- `destroy_made_transport_op` (transport.cc lines 171-175): schedule the
saved inner `on_complete` through `ExecCtx::Run` with the received error, then
`delete` the wrapper. -/
def destroy_made_transport_op (op : made_transport_op) (error : grpc_error_handle) :
    List MadeOpEvent :=
  ((ExecCtx.Run op.inner_on_complete error).map
    (fun ev => MadeOpEvent.forward ev.closure ev.error))
  ++ [MadeOpEvent.free]

/-- `destroy_made_transport_stream_op` (transport.cc lines 192-200): save the
inner `on_complete` pointer, `delete` the wrapper, and only then — if the
saved pointer is non-null — run it inline via `Closure::Run` with the received
error. -/
def destroy_made_transport_stream_op (op : made_transport_stream_op)
    (error : grpc_error_handle) : List MadeOpEvent :=
  let c := op.inner_on_complete
  MadeOpEvent.free ::
    (if c.isSome then
      (Closure.Run c error).map (fun ev => MadeOpEvent.forward ev.closure ev.error)
    else [])

/-- `grpc_make_transport_op` (transport.cc lines 177-184): allocate a wrapper,
point its outer closure at `destroy_made_transport_op` with the wrapper as
argument, save the caller's `on_complete` as the inner closure, and expose the
outer closure as the op's `on_consumed`.  Invoking the wrapper closure is
modelled by applying `destroy_made_transport_op` to this record. -/
def grpc_make_transport_op (on_complete : Option grpc_closure) : made_transport_op :=
  { inner_on_complete := on_complete }

/-- `grpc_make_transport_stream_op` (transport.cc lines 202-211): allocate a
wrapper, wire the payload, point the outer closure at
`destroy_made_transport_stream_op`, save the caller's `on_complete` as the
inner closure, and expose the outer closure as the batch's `on_complete`.
Invoking the wrapper closure is modelled by applying
`destroy_made_transport_stream_op` to this record. -/
def grpc_make_transport_stream_op (on_complete : Option grpc_closure) :
    made_transport_stream_op :=
  { inner_on_complete := on_complete }

/-- The forwarded (closure, error) pairs among a wrapper's events, in order. -/
def forwardsOf : List MadeOpEvent → List (grpc_closure × grpc_error_handle)
  | [] => []
  | MadeOpEvent.forward c e :: r => (c, e) :: forwardsOf r
  | MadeOpEvent.free :: r => forwardsOf r

/-- The number of frees among a wrapper's events. -/
def freesOf : List MadeOpEvent → Nat
  | [] => 0
  | MadeOpEvent.forward _ _ :: r => freesOf r
  | MadeOpEvent.free :: r => freesOf r + 1

/-- Modelled from the spec: `grpc_polling_entity` (polling_entity.h, outside
src/) is one of three mutually exclusive variants — a single pollset, a
pollset set, or empty. -/
inductive grpc_polling_entity where
  | pollset (p : Nat)
  | pollset_set (s : Nat)
  | empty
deriving DecidableEq, Repr

/-- Modelled from the spec: `grpc_polling_entity_pollset` returns the pollset
for the fd-style variant and null otherwise (polling_entity.h, outside
src/). -/
def grpc_polling_entity_pollset : grpc_polling_entity → Option Nat
  | grpc_polling_entity.pollset p => some p
  | _ => none

/-- Modelled from the spec: `grpc_polling_entity_pollset_set` returns the
pollset set for the set-of-sets variant and null otherwise (polling_entity.h,
outside src/). -/
def grpc_polling_entity_pollset_set : grpc_polling_entity → Option Nat
  | grpc_polling_entity.pollset_set s => some s
  | _ => none

/-- A virtual call made by `Transport::SetPollingEntity` on itself. -/
inductive PollingCall where
  | setPollset (stream : Nat) (p : Nat)
  | setPollsetSet (stream : Nat) (s : Nat)
deriving DecidableEq, Repr

/-- `grpc_core::Transport::SetPollingEntity` (transport.cc lines 84-95): if
the entity yields a pollset, call `SetPollset`; else if it yields a pollset
set, call `SetPollsetSet`; else do nothing. -/
def Transport.SetPollingEntity (stream : Nat)
    (pollset_or_pollset_set : grpc_polling_entity) : List PollingCall :=
  match grpc_polling_entity_pollset pollset_or_pollset_set with
  | some pollset => [PollingCall.setPollset stream pollset]
  | none =>
    match grpc_polling_entity_pollset_set pollset_or_pollset_set with
    | some pollset_set => [PollingCall.setPollsetSet stream pollset_set]
    | none => []

lemma validFrom_cons {n : Nat} {op : RefOp} {r : List RefOp}
    (h : validFrom n (op :: r) = true) :
    n ≠ 0 ∧ validFrom (stepCount n op) r = true := by
  simp only [validFrom, Bool.and_eq_true, bne_iff_ne, ne_eq] at h
  exact h

lemma validFrom_zero {l : List RefOp} (h : validFrom 0 l = true) : l = [] := by
  cases l with
  | nil => rfl
  | cons op r => simp [validFrom] at h

lemma runRefOps_count (l : List RefOp) : ∀ n, validFrom n l = true →
    (runRefOps n l).1 + unrefsCount l = n + refsCount l := by
  induction l with
  | nil => intro n _; simp [runRefOps, unrefsCount, refsCount]
  | cons op r ih =>
    intro n h
    obtain ⟨hn, hr⟩ := validFrom_cons h
    cases op with
    | ref =>
      have hrec := ih (n + 1) hr
      simp only [runRefOps, unrefsCount, refsCount, stepCount] at hrec ⊢
      omega
    | unref =>
      have hrec := ih (n - 1) hr
      simp only [runRefOps, unrefsCount, refsCount, stepCount] at hrec ⊢
      omega

lemma runRefOps_fires (l : List RefOp) : ∀ n, n ≠ 0 → validFrom n l = true →
    (runRefOps n l).2 = if (runRefOps n l).1 = 0 then 1 else 0 := by
  induction l with
  | nil =>
    intro n hn _
    simp only [runRefOps]
    rw [if_neg hn]
  | cons op r ih =>
    intro n hn h
    obtain ⟨_, hr⟩ := validFrom_cons h
    cases op with
    | ref =>
      have hrec := ih (n + 1) (Nat.succ_ne_zero n) hr
      simpa [runRefOps, stepFires, stepCount] using hrec
    | unref =>
      by_cases h1 : n = 1
      · subst h1
        have hr0 : validFrom 0 r = true := by simpa [stepCount] using hr
        have hnil : r = [] := validFrom_zero hr0
        subst hnil
        simp [runRefOps, stepFires, stepCount]
      · have hn1 : n - 1 ≠ 0 := by omega
        have hrec := ih (n - 1) hn1 hr
        simpa [runRefOps, stepFires, stepCount, h1] using hrec

lemma validFrom_append (p : List RefOp) : ∀ n r, validFrom n (p ++ r) = true →
    validFrom n p = true ∧ (r ≠ [] → (runRefOps n p).1 ≠ 0) := by
  induction p with
  | nil =>
    intro n r h
    refine ⟨rfl, ?_⟩
    intro hr
    cases r with
    | nil => exact absurd rfl hr
    | cons op r2 =>
      obtain ⟨hn, _⟩ := validFrom_cons (by simpa using h)
      simpa [runRefOps] using hn
  | cons op p2 ih =>
    intro n r h
    obtain ⟨hn, h2⟩ := validFrom_cons (by simpa using h)
    obtain ⟨hp, hlast⟩ := ih (stepCount n op) r h2
    constructor
    · simp [validFrom, hp, hn]
    · intro hr
      simpa [runRefOps] using hlast hr

lemma queue_finish_closures_eq (batch : grpc_transport_stream_op_batch)
    (error : grpc_error_handle) (closures : CallCombinerClosureList) :
    (grpc_transport_stream_op_batch_queue_finish_with_failure batch error closures).closures
      = closures.closures
        ++ (if batch.recv_initial_metadata then
              [{ closure := batch.payload.recv_initial_metadata.recv_initial_metadata_ready
                 error := error, reason := "failing recv_initial_metadata_ready" }]
            else [])
        ++ (if batch.recv_message then
              [{ closure := batch.payload.recv_message.recv_message_ready
                 error := error, reason := "failing recv_message_ready" }]
            else [])
        ++ (if batch.recv_trailing_metadata then
              [{ closure := batch.payload.recv_trailing_metadata.recv_trailing_metadata_ready
                 error := error, reason := "failing recv_trailing_metadata_ready" }]
            else [])
        ++ (if batch.on_complete.isSome then
              [{ closure := batch.on_complete
                 error := error, reason := "failing on_complete" }]
            else []) := by
  cases h1 : batch.recv_initial_metadata <;> cases h2 : batch.recv_message <;>
    cases h3 : batch.recv_trailing_metadata <;> cases h4 : batch.on_complete.isSome <;>
    simp [grpc_transport_stream_op_batch_queue_finish_with_failure,
      CallCombinerClosureList.Add, h1, h2, h3, h4]

lemma drainEntries_append (a b : List CallCombinerEntry) :
    drainEntries (a ++ b) = drainEntries a ++ drainEntries b := by
  induction a with
  | nil => simp [drainEntries]
  | cons en r ih => simp [drainEntries, ih]

/-- C1: for every batch, error and starting list,
`grpc_transport_stream_op_batch_queue_finish_with_failure` appends exactly one
entry per closure present in the batch — `recv_initial_metadata_ready` when
the `recv_initial_metadata` flag is set, `recv_message_ready` when
`recv_message` is set, `recv_trailing_metadata_ready` when
`recv_trailing_metadata` is set, and `on_complete` when non-null — each
carrying the supplied error, zero entries for absent ones, in that order; it
only extends the list and runs nothing itself. -/
theorem queue_finish_with_failure_appends_present_closures
    (batch : grpc_transport_stream_op_batch) (error : grpc_error_handle)
    (closures : CallCombinerClosureList) :
    (grpc_transport_stream_op_batch_queue_finish_with_failure batch error closures).closures
      = closures.closures
        ++ (if batch.recv_initial_metadata then
              [{ closure := batch.payload.recv_initial_metadata.recv_initial_metadata_ready
                 error := error, reason := "failing recv_initial_metadata_ready" }]
            else [])
        ++ (if batch.recv_message then
              [{ closure := batch.payload.recv_message.recv_message_ready
                 error := error, reason := "failing recv_message_ready" }]
            else [])
        ++ (if batch.recv_trailing_metadata then
              [{ closure := batch.payload.recv_trailing_metadata.recv_trailing_metadata_ready
                 error := error, reason := "failing recv_trailing_metadata_ready" }]
            else [])
        ++ (if batch.on_complete.isSome then
              [{ closure := batch.on_complete
                 error := error, reason := "failing on_complete" }]
            else []) :=
  queue_finish_closures_eq batch error closures

/-- C4: for every batch, error and call combiner,
`grpc_transport_stream_op_batch_finish_with_failure` equals building the
closure list with `queue_finish_with_failure` on an empty list and then
immediately draining that list through the given combiner — a composition,
not a separate algorithm. -/
theorem finish_with_failure_is_queue_then_run
    (batch : grpc_transport_stream_op_batch) (error : grpc_error_handle)
    (call_combiner : Nat) :
    grpc_transport_stream_op_batch_finish_with_failure batch error call_combiner
      = (grpc_transport_stream_op_batch_queue_finish_with_failure batch error
          { closures := [] }).RunClosures call_combiner :=
  rfl

/-- C5: for every batch and error,
`grpc_transport_stream_op_batch_finish_with_failure_from_transport` runs,
immediately through the ambient execution context (`ExecCtx::Run`), exactly
the closures that `queue_finish_with_failure` would select for the batch, with
the same error and in the same order — `recv_initial_metadata_ready`,
`recv_message_ready`, `recv_trailing_metadata_ready`, `on_complete` last. -/
theorem finish_from_transport_runs_queued_closures
    (batch : grpc_transport_stream_op_batch) (error : grpc_error_handle) :
    grpc_transport_stream_op_batch_finish_with_failure_from_transport batch error
      = drainFires (grpc_transport_stream_op_batch_queue_finish_with_failure batch error
          { closures := [] }) := by
  rw [drainFires, queue_finish_closures_eq]
  simp only [List.nil_append, drainEntries_append]
  cases h1 : batch.recv_initial_metadata <;> cases h2 : batch.recv_message <;>
    cases h3 : batch.recv_trailing_metadata <;> cases h4 : batch.on_complete.isSome <;>
    simp [grpc_transport_stream_op_batch_finish_with_failure_from_transport,
      drainEntries, h1, h2, h3, h4]

/-- C6: for every batch and error, a receive slot whose flag is set but whose
ready-closure pointer in the payload is null never fires a closure on either
failure-propagation path: the immediate-from-transport run events and the
closures that eventually fire from draining the queued list are the same as
for the batch with that flag cleared. -/
theorem null_ready_closure_never_fires
    (batch : grpc_transport_stream_op_batch) (error : grpc_error_handle) :
    (batch.payload.recv_initial_metadata.recv_initial_metadata_ready = none →
      grpc_transport_stream_op_batch_finish_with_failure_from_transport batch error
        = grpc_transport_stream_op_batch_finish_with_failure_from_transport
            { batch with recv_initial_metadata := false } error
      ∧ drainFires (grpc_transport_stream_op_batch_queue_finish_with_failure batch error
            { closures := [] })
        = drainFires (grpc_transport_stream_op_batch_queue_finish_with_failure
            { batch with recv_initial_metadata := false } error { closures := [] }))
    ∧ (batch.payload.recv_message.recv_message_ready = none →
      grpc_transport_stream_op_batch_finish_with_failure_from_transport batch error
        = grpc_transport_stream_op_batch_finish_with_failure_from_transport
            { batch with recv_message := false } error
      ∧ drainFires (grpc_transport_stream_op_batch_queue_finish_with_failure batch error
            { closures := [] })
        = drainFires (grpc_transport_stream_op_batch_queue_finish_with_failure
            { batch with recv_message := false } error { closures := [] }))
    ∧ (batch.payload.recv_trailing_metadata.recv_trailing_metadata_ready = none →
      grpc_transport_stream_op_batch_finish_with_failure_from_transport batch error
        = grpc_transport_stream_op_batch_finish_with_failure_from_transport
            { batch with recv_trailing_metadata := false } error
      ∧ drainFires (grpc_transport_stream_op_batch_queue_finish_with_failure batch error
            { closures := [] })
        = drainFires (grpc_transport_stream_op_batch_queue_finish_with_failure
            { batch with recv_trailing_metadata := false } error { closures := [] })) := by
  obtain ⟨oc, ⟨⟨r1⟩, ⟨r2⟩, ⟨r3⟩⟩, s1, s2, s3, b1, b2, b3, cs⟩ := batch
  refine ⟨fun h => ?_, fun h => ?_, fun h => ?_⟩
  · replace h : r1 = none := h
    subst h
    cases b1 <;> cases b2 <;> cases b3 <;> cases oc <;>
      simp [grpc_transport_stream_op_batch_finish_with_failure_from_transport,
        grpc_transport_stream_op_batch_queue_finish_with_failure,
        CallCombinerClosureList.Add, drainFires, drainEntries, ExecCtx.Run]
  · replace h : r2 = none := h
    subst h
    cases b1 <;> cases b2 <;> cases b3 <;> cases oc <;>
      simp [grpc_transport_stream_op_batch_finish_with_failure_from_transport,
        grpc_transport_stream_op_batch_queue_finish_with_failure,
        CallCombinerClosureList.Add, drainFires, drainEntries, ExecCtx.Run]
  · replace h : r3 = none := h
    subst h
    cases b1 <;> cases b2 <;> cases b3 <;> cases oc <;>
      simp [grpc_transport_stream_op_batch_finish_with_failure_from_transport,
        grpc_transport_stream_op_batch_queue_finish_with_failure,
        CallCombinerClosureList.Add, drainFires, drainEntries, ExecCtx.Run]

/-- C6 witness: a concrete batch whose `recv_initial_metadata` flag is set but
whose ready pointer is null fires the same closures as the batch with the flag
cleared, on both failure paths. -/
theorem null_ready_closure_never_fires_witness :
    grpc_transport_stream_op_batch_finish_with_failure_from_transport
        { on_complete := none
          payload := { recv_initial_metadata := { recv_initial_metadata_ready := none }
                       recv_message := { recv_message_ready := none }
                       recv_trailing_metadata := { recv_trailing_metadata_ready := none } }
          send_initial_metadata := false, send_trailing_metadata := false
          send_message := false, recv_initial_metadata := true
          recv_message := false, recv_trailing_metadata := false
          cancel_stream := false } 5
      = grpc_transport_stream_op_batch_finish_with_failure_from_transport
          { ({ on_complete := none
               payload := { recv_initial_metadata := { recv_initial_metadata_ready := none }
                            recv_message := { recv_message_ready := none }
                            recv_trailing_metadata := { recv_trailing_metadata_ready := none } }
               send_initial_metadata := false, send_trailing_metadata := false
               send_message := false, recv_initial_metadata := true
               recv_message := false, recv_trailing_metadata := false
               cancel_stream := false } : grpc_transport_stream_op_batch) with
            recv_initial_metadata := false } 5
    ∧ drainFires (grpc_transport_stream_op_batch_queue_finish_with_failure
          { on_complete := none
            payload := { recv_initial_metadata := { recv_initial_metadata_ready := none }
                         recv_message := { recv_message_ready := none }
                         recv_trailing_metadata := { recv_trailing_metadata_ready := none } }
            send_initial_metadata := false, send_trailing_metadata := false
            send_message := false, recv_initial_metadata := true
            recv_message := false, recv_trailing_metadata := false
            cancel_stream := false } 5 { closures := [] })
      = drainFires (grpc_transport_stream_op_batch_queue_finish_with_failure
          { ({ on_complete := none
               payload := { recv_initial_metadata := { recv_initial_metadata_ready := none }
                            recv_message := { recv_message_ready := none }
                            recv_trailing_metadata := { recv_trailing_metadata_ready := none } }
               send_initial_metadata := false, send_trailing_metadata := false
               send_message := false, recv_initial_metadata := true
               recv_message := false, recv_trailing_metadata := false
               cancel_stream := false } : grpc_transport_stream_op_batch) with
            recv_initial_metadata := false } 5 { closures := [] }) :=
  (null_ready_closure_never_fires
    { on_complete := none
      payload := { recv_initial_metadata := { recv_initial_metadata_ready := none }
                   recv_message := { recv_message_ready := none }
                   recv_trailing_metadata := { recv_trailing_metadata_ready := none } }
      send_initial_metadata := false, send_trailing_metadata := false
      send_message := false, recv_initial_metadata := true
      recv_message := false, recv_trailing_metadata := false
      cancel_stream := false } 5).1 rfl

/-- C2: for every execution context and refcount, if the thread-resource-loop
flag is set then `grpc_stream_destroy` is not dispatched to the current
execution context at all — the destroy closure is handed to the independent
event engine, whose task runs it in a fresh execution scope with the success
status; if the flag is clear, the destroy closure is run through the current
execution context with the success status. -/
theorem stream_destroy_dispatch (ctx : ExecCtxState) (rc : grpc_stream_refcount) :
    (ctx.flags &&& GRPC_EXEC_CTX_FLAG_THREAD_RESOURCE_LOOP ≠ 0 →
      grpc_stream_destroy ctx rc
        = StreamDestroyDispatch.eventEngineRun
            [{ closure := rc.destroy, error := absl_OkStatus }]
      ∧ ∀ l, grpc_stream_destroy ctx rc ≠ StreamDestroyDispatch.currentExecCtx l)
    ∧ (ctx.flags &&& GRPC_EXEC_CTX_FLAG_THREAD_RESOURCE_LOOP = 0 →
      grpc_stream_destroy ctx rc
        = StreamDestroyDispatch.currentExecCtx
            [{ closure := rc.destroy, error := absl_OkStatus }]) := by
  constructor
  · intro h
    constructor
    · simp [grpc_stream_destroy, h, ExecCtx.Run]
    · intro l
      simp [grpc_stream_destroy, h, ExecCtx.Run]
  · intro h
    simp [grpc_stream_destroy, h, ExecCtx.Run]

/-- C2 witness: with the resource-loop bit set the destroy closure goes to the
event engine; with a zero flag word it goes to the current execution
context. -/
theorem stream_destroy_dispatch_witness :
    (grpc_stream_destroy { flags := 2 }
        { refs := 1, destroy := { cb := 3, cb_arg := 4 }, object_type := "stream" }
      = StreamDestroyDispatch.eventEngineRun
          [{ closure := { cb := 3, cb_arg := 4 }, error := absl_OkStatus }])
    ∧ grpc_stream_destroy { flags := 0 }
        { refs := 1, destroy := { cb := 3, cb_arg := 4 }, object_type := "stream" }
      = StreamDestroyDispatch.currentExecCtx
          [{ closure := { cb := 3, cb_arg := 4 }, error := absl_OkStatus }] :=
  ⟨((stream_destroy_dispatch { flags := 2 }
      { refs := 1, destroy := { cb := 3, cb_arg := 4 }, object_type := "stream" }).1
      (by decide)).1,
   (stream_destroy_dispatch { flags := 0 }
      { refs := 1, destroy := { cb := 3, cb_arg := 4 }, object_type := "stream" }).2
      (by decide)⟩

/-- C9: for every stream and polling entity, `Transport::SetPollingEntity`
makes exactly one dispatch — `SetPollset` for an fd-style (pollset) entity,
`SetPollsetSet` for a set-of-sets entity, and no call at all (and no error)
for an empty entity. -/
theorem set_polling_entity_dispatch (stream : Nat) (e : grpc_polling_entity) :
    Transport.SetPollingEntity stream e
      = match e with
        | grpc_polling_entity.pollset p => [PollingCall.setPollset stream p]
        | grpc_polling_entity.pollset_set s => [PollingCall.setPollsetSet stream s]
        | grpc_polling_entity.empty => [] := by
  cases e <;> rfl

/-- C10: for every requested initial reference count, callback and argument,
`grpc_stream_ref_init` initialises the count to exactly 1 — the
`initial_refs` argument is ignored, so two calls differing only in it build
identical refcounts — and binds the destroy closure to the supplied callback
and argument. -/
theorem stream_ref_init_count_is_one (i j : Int) (cb : Nat) (a : Nat) (t : String) :
    (grpc_stream_ref_init i cb a t).refs = 1
    ∧ (grpc_stream_ref_init i cb a t).destroy = GRPC_CLOSURE_INIT cb a
    ∧ grpc_stream_ref_init i cb a t = grpc_stream_ref_init j cb a t :=
  ⟨rfl, rfl, rfl⟩

/-- C7: for every synthetic op built by `grpc_make_transport_op` or
`grpc_make_transport_stream_op` and every error its wrapper closure is invoked
with, a non-null caller-supplied `on_complete` is forwarded exactly once with
that same error, a null one is never forwarded, and in all cases the wrapper
allocation is freed exactly once. -/
theorem synthetic_op_wrapper_forwards_once_frees_once
    (oc : Option grpc_closure) (e : grpc_error_handle) :
    forwardsOf (destroy_made_transport_op (grpc_make_transport_op oc) e)
        = (match oc with | some c => [(c, e)] | none => [])
    ∧ forwardsOf (destroy_made_transport_stream_op (grpc_make_transport_stream_op oc) e)
        = (match oc with | some c => [(c, e)] | none => [])
    ∧ freesOf (destroy_made_transport_op (grpc_make_transport_op oc) e) = 1
    ∧ freesOf (destroy_made_transport_stream_op (grpc_make_transport_stream_op oc) e) = 1 := by
  cases oc <;>
    simp [destroy_made_transport_op, destroy_made_transport_stream_op,
      grpc_make_transport_op, grpc_make_transport_stream_op, ExecCtx.Run, Closure.Run,
      forwardsOf, freesOf]

/-- C8 counterexample: for the stream-op wrapper with a present inner closure,
the free comes first and the forwarding second, so the claim that the
forwarding step precedes the free in both wrappers is false. -/
theorem stream_op_wrapper_frees_before_forwarding :
    destroy_made_transport_stream_op
        (grpc_make_transport_stream_op (some { cb := 0, cb_arg := 0 })) 0
      = [MadeOpEvent.free, MadeOpEvent.forward { cb := 0, cb_arg := 0 } 0]
    ∧ (destroy_made_transport_stream_op
        (grpc_make_transport_stream_op (some { cb := 0, cb_arg := 0 })) 0).head?
      ≠ some (MadeOpEvent.forward { cb := 0, cb_arg := 0 } 0) := by
  decide

/-- C8 amended: the transport-op wrapper forwards the inner `on_complete`
(when present) before freeing the allocation; the stream-op wrapper saves the
inner closure, frees the allocation first, and forwards the saved closure with
the same error only after the free. -/
theorem synthetic_op_wrapper_event_order
    (oc : Option grpc_closure) (e : grpc_error_handle) :
    destroy_made_transport_op (grpc_make_transport_op oc) e
      = (match oc with
         | some c => [MadeOpEvent.forward c e, MadeOpEvent.free]
         | none => [MadeOpEvent.free])
    ∧ destroy_made_transport_stream_op (grpc_make_transport_stream_op oc) e
      = (match oc with
         | some c => [MadeOpEvent.free, MadeOpEvent.forward c e]
         | none => [MadeOpEvent.free]) := by
  cases oc <;> exact ⟨rfl, rfl⟩

/-- C3 counterexample: the sequence unref, ref, unref has one more unref than
ref, as the claim requires, yet on a freshly initialised refcount the destroy
protocol fires twice, and it already fires at the first operation — before
the last unref. -/
theorem stream_refcount_revive_fires_twice :
    unrefsCount [RefOp.unref, RefOp.ref, RefOp.unref]
        = refsCount [RefOp.unref, RefOp.ref, RefOp.unref] + 1
    ∧ (runRefOps (grpc_stream_ref_init 1 7 8 "stream").refs
        [RefOp.unref, RefOp.ref, RefOp.unref]).2 = 2
    ∧ (runRefOps (grpc_stream_ref_init 1 7 8 "stream").refs [RefOp.unref]).2 = 1 := by
  decide

/-- C3 amended: for a freshly initialised refcount (count 1) and any ref/unref
sequence with one more unref than ref that also respects the spec's usage
rules — the count is nonzero before every operation, i.e. no operation is
issued after the count has reached zero — the destroy protocol fires exactly
once, and fires in no proper prefix of the sequence, hence only at the last
unref. -/
theorem stream_refcount_destroy_exactly_once (i : Int) (cb : Nat) (a : Nat) (t : String)
    (ops : List RefOp)
    (hv : validFrom (grpc_stream_ref_init i cb a t).refs ops = true)
    (hc : unrefsCount ops = refsCount ops + 1) :
    (runRefOps (grpc_stream_ref_init i cb a t).refs ops).2 = 1
    ∧ ∀ p r, ops = p ++ r → r ≠ [] →
        (runRefOps (grpc_stream_ref_init i cb a t).refs p).2 = 0 := by
  have hrefs : (grpc_stream_ref_init i cb a t).refs = 1 := rfl
  rw [hrefs] at hv ⊢
  constructor
  · have hcount := runRefOps_count ops 1 hv
    have hfin : (runRefOps 1 ops).1 = 0 := by omega
    have hfire := runRefOps_fires ops 1 one_ne_zero hv
    rw [hfire, hfin]
    simp
  · intro p r hpr hr
    subst hpr
    obtain ⟨hp, hnz⟩ := validFrom_append p 1 r hv
    have hfire := runRefOps_fires p 1 one_ne_zero hp
    rw [hfire, if_neg (hnz hr)]

/-- C3 witness: the sequence ref, unref, unref is valid, has one more unref
than ref, fires the destroy protocol exactly once, and fires nothing in any
proper prefix. -/
theorem stream_refcount_destroy_exactly_once_witness :
    (runRefOps (grpc_stream_ref_init 1 7 8 "stream").refs
        [RefOp.ref, RefOp.unref, RefOp.unref]).2 = 1
    ∧ ∀ p r, [RefOp.ref, RefOp.unref, RefOp.unref] = p ++ r → r ≠ [] →
        (runRefOps (grpc_stream_ref_init 1 7 8 "stream").refs p).2 = 0 :=
  stream_refcount_destroy_exactly_once 1 7 8 "stream"
    [RefOp.ref, RefOp.unref, RefOp.unref] (by decide) (by decide)
